import Mathlib

/-!
Shallow embedding of the dcd remote deployment orchestration engine
(repository g1ibby/dcd): the SSH host-key trust policy and known-hosts
loader (src/executor/ssh_executor.rs), the docker-compose health
classification and compose_up/prune_images (src/deployer/docker_manager/mod.rs),
the post-start health-check retry loop, destroy pipeline and firewall step
(src/deployer/service.rs), the checksum-based file synchronization
(src/deployer/sync/files.rs) and the UFW verification
(src/deployer/firewall/ufw.rs).

Modelling conventions: Rust String and byte buffers are Lean String
(valid UTF-8), u16/u32 are Nat, i32 is Int; the remote endpoint is an
explicit response function from command strings to results; async is
erased (all remote interaction in the functions under study is
sequential); fallible calls return Except.
-/

namespace Dcd

/-- Model of Rust str::split_whitespace: split on whitespace characters and
drop the empty substrings. -/
def splitWhitespace (s : String) : List String :=
  (s.split Char.isWhitespace).filter (fun t => t != "")

/-- Model of Rust str::contains for a nonempty pattern: the pattern occurs as
a substring exactly when splitting on it yields more than one part. -/
def containsSub (s pat : String) : Bool :=
  (s.splitOn pat).length != 1

/-- src/executor/error.rs ExecutorError: transport or spawn problems of the
execution layer. A nonzero exit code is not one of these. -/
inductive ExecutorError where
  | sshError (msg : String)
  | localError (msg : String)
  | other (msg : String)
  deriving Repr, DecidableEq

/-- The thiserror Display of ExecutorError. -/
def ExecutorError.display : ExecutorError → String
  | .sshError m => "SSH error: " ++ m
  | .localError m => "Local command error: " ++ m
  | .other m => "Generic executor error: " ++ m

/-- src/executor/types.rs CommandOutput (timestamp and duration, real-time
data, are omitted; stdout and stderr bytes are modelled as String). -/
structure CommandOutput where
  stdout : String
  stderr : String
  exit_code : Nat
  deriving Repr, DecidableEq

/-- src/executor/types.rs CommandResult. -/
structure CommandResult where
  command : String
  output : CommandOutput
  deriving Repr, DecidableEq

/-- CommandResult::is_success: exit code zero. -/
def CommandResult.is_success (r : CommandResult) : Bool :=
  r.output.exit_code == 0

/- ## SSH host-key trust (src/executor/ssh_executor.rs) -/

/-- Key material of an SSH public key (russh keys::PublicKey, compared
structurally by the source). -/
abbrev PublicKey := String

/-- The known-hosts trust store HashMap<String, Vec<PublicKey>>, modelled as
an association list looked up by hostname. -/
abbrev KnownHostsMap := List (String × List PublicKey)

/-- HashMap::get on the trust store model. -/
def mapGet (m : KnownHostsMap) (host : String) : Option (List PublicKey) :=
  (m.find? (fun p => p.1 == host)).map (fun p => p.2)

/-- HashMap::entry(host).or_default().push(key) on the trust store model. -/
def mapPush (m : KnownHostsMap) (host : String) (key : PublicKey) : KnownHostsMap :=
  if m.any (fun p => p.1 == host) then
    m.map (fun p => if p.1 == host then (p.1, p.2 ++ [key]) else p)
  else m ++ [(host, [key])]

/-- ClientHandler (ssh_executor.rs lines 55-78): the state consulted by
check_server_key. -/
structure ClientHandler where
  target_host : String
  trusted_keys : KnownHostsMap
  suppress_unknown_host_warning : Bool

/-- Observable outcome of ClientHandler::check_server_key: the accept/reject
decision and which operator-facing diagnostic was printed to stderr. -/
structure CheckServerKeyResult where
  accept : Bool
  printedMismatchError : Bool
  printedUnknownWarning : Bool
  deriving Repr, DecidableEq

/-- ClientHandler::check_server_key (ssh_executor.rs lines 83-121). -/
def check_server_key (h : ClientHandler) (server_public_key : PublicKey) :
    CheckServerKeyResult :=
  match mapGet h.trusted_keys h.target_host with
  | some known_keys_for_host =>
      if known_keys_for_host.any (fun known_key => known_key == server_public_key) then
        { accept := true, printedMismatchError := false, printedUnknownWarning := false }
      else
        { accept := false, printedMismatchError := true, printedUnknownWarning := false }
  | none =>
      { accept := true, printedMismatchError := false,
        printedUnknownWarning := !h.suppress_unknown_host_warning }

/-- parse_known_host_line (ssh_executor.rs lines 380-401). Key parsing
(russh keys::parse_public_key_base64, an external library) is the
parameter parseKey. -/
def parse_known_host_line (parseKey : String → Option PublicKey) (line : String) :
    Option (List String × PublicKey) :=
  match splitWhitespace line with
  | hosts_part :: _ :: key_data :: _ =>
      match parseKey key_data with
      | some key => some (hosts_part.splitOn ",", key)
      | none => none
  | _ => none

/-- load_known_hosts (ssh_executor.rs lines 405-440). The filesystem is the
pair of fileExists (Path::exists) and readResult (fs::read_to_string). -/
def load_known_hosts (parseKey : String → Option PublicKey) (fileExists : Bool)
    (readResult : Except String String) : Except ExecutorError KnownHostsMap :=
  if !fileExists then
    .ok []
  else
    match readResult with
    | .error e => .error (.sshError ("Failed to read known_hosts file: " ++ e))
    | .ok content =>
        .ok ((content.splitOn "\n").foldl (fun acc line =>
          let trimmed := line.trim
          if trimmed == "" || trimmed.startsWith "#" then acc
          else
            match parse_known_host_line parseKey trimmed with
            | some (hosts, key) => hosts.foldl (fun m host => mapPush m host key) acc
            | none => acc) [])

/- ## Health classification (src/deployer/docker_manager/mod.rs) -/

/-- docker_manager Publisher record. -/
structure Publisher where
  url : String
  target_port : Nat
  published_port : Nat
  protocol : String
  deriving Repr, DecidableEq

/-- docker_manager ServiceStatus record, as parsed from the remote
compose status JSON. -/
structure ServiceStatus where
  command : String
  created_at : String
  exit_code : Int
  health : String
  id : String
  image : String
  labels : String
  local_volumes : String
  mounts : String
  name : String
  names : String
  networks : String
  ports : String
  project : String
  publishers : List Publisher
  running_for : String
  service : String
  size : String
  state : String
  status : String
  deriving Repr, DecidableEq

/-- ServiceStatus::is_running. -/
def ServiceStatus.is_running (s : ServiceStatus) : Bool :=
  s.state == "running"

/-- ServiceStatus::is_healthy: running and (no health check or health
reports healthy). -/
def ServiceStatus.is_healthy (s : ServiceStatus) : Bool :=
  s.is_running && (s.health == "" || s.health == "healthy")

/-- docker_manager UnhealthyService. -/
structure UnhealthyService where
  name : String
  state : String
  health : String
  exit_code : Int
  status : String
  deriving Repr, DecidableEq

/-- docker_manager HealthCheckResult. -/
inductive HealthCheckResult where
  | Healthy
  | Starting (l : List UnhealthyService)
  | Failed (l : List UnhealthyService)
  | NoServices
  deriving Repr, DecidableEq

/-- The UnhealthyService detail built in verify_services_healthy. -/
def to_unhealthy (s : ServiceStatus) : UnhealthyService :=
  { name := s.service, state := s.state, health := s.health,
    exit_code := s.exit_code, status := s.status }

/-- The accumulation loop of verify_services_healthy (mod.rs lines 363-389):
walks the services in order and returns (starting_services, failed_services). -/
def classify_services (services : List ServiceStatus) :
    List UnhealthyService × List UnhealthyService :=
  services.foldl
    (fun acc s =>
      if s.is_running && (s.health == "" || s.health == "healthy") then acc
      else if s.is_running && s.health == "starting" then (acc.1 ++ [to_unhealthy s], acc.2)
      else (acc.1, acc.2 ++ [to_unhealthy s]))
    ([], [])

/-- SshDockerManager::verify_services_healthy (mod.rs lines 355-414), its
pure classification of the fetched service list (the fetch itself,
get_services_status, is the transport layer and can only fail as a whole). -/
def verify_services_healthy (services : List ServiceStatus) : HealthCheckResult :=
  if services.isEmpty then .NoServices
  else
    let p := classify_services services
    if !p.2.isEmpty then .Failed (p.2 ++ p.1)
    else if !p.1.isEmpty then .Starting p.1
    else .Healthy

/- ## Deployment types (src/deployer/types.rs, src/executor/types.rs,
src/deployer/docker_manager/error.rs) -/

/-- src/executor/types.rs OutputError. -/
inductive OutputError where
  | utf8Error (msg : String)
  | emptyOutput
  | jsonError (msg : String)
  | outputTooLarge (size : Nat)
  deriving Repr, DecidableEq

/-- The thiserror Display of OutputError. -/
def OutputError.display : OutputError → String
  | .utf8Error m => "UTF-8 conversion error: " ++ m
  | .emptyOutput => "Output is empty"
  | .jsonError m => "JSON parsing error: " ++ m
  | .outputTooLarge size => "Output exceeds maximum size: " ++ toString size ++ " bytes"

/-- src/deployer/docker_manager/error.rs DockerError. -/
inductive DockerError where
  | dockerNotInstalled
  | executor (e : ExecutorError)
  | output (e : OutputError)
  | dockerComposeNotInstalled
  | unsupportedOS (msg : String)
  | installationError (msg : String)
  | workingDirError (msg : String)
  | composeFileNotFound (msg : String)
  | commandError (cmd message : String)
  | healthCheckError (msg : String)
  | uploadError (msg : String)
  | composeError (msg : String)
  deriving Repr, DecidableEq

/-- The thiserror Display of DockerError. -/
def DockerError.display : DockerError → String
  | .dockerNotInstalled => "Docker is not installed"
  | .executor e => "Executor error: " ++ e.display
  | .output e => "Output error: " ++ e.display
  | .dockerComposeNotInstalled => "Docker Compose is not installed"
  | .unsupportedOS m => "Unsupported operating system: " ++ m
  | .installationError m => "Installation failed: " ++ m
  | .workingDirError m => "Working directory error: " ++ m
  | .composeFileNotFound m => "Docker compose file not found: " ++ m
  | .commandError cmd message => "Command failed: " ++ cmd ++ " - " ++ message
  | .healthCheckError m => "Service health check failed: " ++ m
  | .uploadError m => "Upload error: " ++ m
  | .composeError m => "Docker compose error: " ++ m

/-- src/deployer/types.rs DeployError. -/
inductive DeployError where
  | dockerManager (e : DockerError)
  | fileSync (msg : String)
  | environment (msg : String)
  | firewall (msg : String)
  | configuration (msg : String)
  | deployment (msg : String)
  | outputError (e : OutputError)
  | other (msg : String)
  deriving Repr, DecidableEq

/-- The thiserror Display of DeployError (anyhow Other is transparent). -/
def DeployError.display : DeployError → String
  | .dockerManager e => "Docker manager error: " ++ e.display
  | .fileSync m => "File synchronization error: " ++ m
  | .environment m => "Environment error: " ++ m
  | .firewall m => "Firewall configuration error: " ++ m
  | .configuration m => "Invalid configuration: " ++ m
  | .deployment m => "Deployment failed: " ++ m
  | .outputError e => "Output processing error: " ++ e.display
  | .other m => m

/-- src/deployer/types.rs DeploymentStatus, the mutable accumulator threaded
through the pipeline steps. -/
structure DeploymentStatus where
  files_changed : Bool
  env_changed : Bool
  ports_changed : Bool
  services_healthy : Bool
  message : String
  deriving Repr, DecidableEq

/-- DeploymentStatus::new. -/
def DeploymentStatus.new : DeploymentStatus :=
  { files_changed := false, env_changed := false, ports_changed := false,
    services_healthy := false, message := "" }

/-- src/deployer/types.rs DeployerEvent. -/
inductive DeployerEvent where
  | StepStarted (msg : String)
  | StepCompleted (msg : String)
  | StepFailed (step err : String)
  | HealthCheckAttempt (a t : Nat)
  | HealthCheckStatus (s : String)
  deriving Repr, DecidableEq

/- ## The post-start health-check retry loop
(src/deployer/service.rs, Deployer::deploy_services lines 596-738) -/

/-- Deployer::HEALTH_CHECK_RETRIES. -/
def HEALTH_CHECK_RETRIES : Nat := 5

/-- Deployer::MAX_STARTING_ATTEMPTS. -/
def MAX_STARTING_ATTEMPTS : Nat := 15

/-- The outcome of one poll of verify_services_healthy inside the loop:
either a classification or a transport/parse error. -/
inductive PollStep where
  | ok (r : HealthCheckResult)
  | error (e : DockerError)

/-- How the retry loop terminated. -/
inductive LoopExit where
  | healthy
  | noServices
  | failedTerminal
  | startingTimeout
  | pollError
  deriving Repr, DecidableEq

/-- The per-service detail string of the terminal Failed report
(service.rs lines 652-666): empty health shown as "no health check". -/
def unhealthy_detail (s : UnhealthyService) : String :=
  s.name ++ " (state: " ++ s.state ++ ", health: " ++
    (if s.health == "" then "no health check" else s.health) ++ ")"

/-- The per-service detail string of the terminal Starting report
(service.rs lines 705-708). -/
def starting_detail (s : UnhealthyService) : String :=
  s.name ++ " (state: " ++ s.state ++ ", health: " ++ s.health ++ ")"

/-- The status message of the terminal Failed branch (service.rs lines 668-672). -/
def failed_terminal_message (attempts : Nat) (failed_services : List UnhealthyService) :
    String :=
  "Definitively unhealthy services found after " ++ toString attempts ++ " attempts: " ++
    String.intercalate "; " (failed_services.map unhealthy_detail) ++ "."

/-- The status message of the terminal Starting branch (service.rs lines 710-714). -/
def starting_timeout_message (attempts : Nat) (starting_services : List UnhealthyService) :
    String :=
  "Services still in 'starting' state after extended timeout (" ++ toString attempts ++
    " attempts): " ++ String.intercalate "; " (starting_services.map starting_detail) ++ "."

/-- The health-check retry loop of Deployer::deploy_services (service.rs lines
597-736): attempts is incremented at the top of each iteration and one shared
counter is tested against both budgets; polls gives the result of the
verify_services_healthy call of each attempt. Progress events and the sleeps
between retries are not modelled; the returned pair is the status after the
loop's mutations and how the loop exited. -/
def health_check_loop (polls : Nat → PollStep) (attempts : Nat)
    (status : DeploymentStatus) : DeploymentStatus × LoopExit :=
  let a := attempts + 1
  match polls a with
  | .ok .Healthy => ({ status with services_healthy := true }, .healthy)
  | .ok .NoServices =>
      ({ status with
          services_healthy := false
          message := "No services were found after deployment." }, .noServices)
  | .ok (.Failed failed_services) =>
      if _h : a < HEALTH_CHECK_RETRIES then health_check_loop polls a status
      else
        ({ status with
            services_healthy := false
            message := failed_terminal_message a failed_services }, .failedTerminal)
  | .ok (.Starting starting_services) =>
      if _h : a < MAX_STARTING_ATTEMPTS then health_check_loop polls a status
      else
        ({ status with
            services_healthy := false
            message := starting_timeout_message a starting_services }, .startingTimeout)
  | .error e =>
      ({ status with
          services_healthy := false
          message := "Error checking service health: " ++ e.display }, .pollError)
termination_by MAX_STARTING_ATTEMPTS - attempts
decreasing_by
  · simp [HEALTH_CHECK_RETRIES, MAX_STARTING_ATTEMPTS] at *
    omega
  · simp [MAX_STARTING_ATTEMPTS] at *
    omega

/-- Deployer::deploy_services (service.rs lines 527-739): the docker manager
setup (manager creation, install checks, compose_up) is passed as its outcome
and any failure there propagates; afterwards the retry loop runs and the
function returns Ok unconditionally. -/
def deploy_services (setup : Except DeployError Unit) (polls : Nat → PollStep)
    (status : DeploymentStatus) : Except DeployError DeploymentStatus :=
  match setup with
  | .error e => .error e
  | .ok _ => .ok (health_check_loop polls 0 status).1

/-- The Deploying Services step of Deployer::deploy (service.rs lines 148-165):
emits the started event, runs deploy_services, then emits completed (and
deploy goes on to return the status) or failed (and deploy returns the error). -/
def deploy_step4 (r : Except DeployError DeploymentStatus) :
    List DeployerEvent × Except DeployError DeploymentStatus :=
  match r with
  | .error e =>
      ([.StepStarted "Deploying services", .StepFailed "Deploying services" e.display],
        .error e)
  | .ok st =>
      ([.StepStarted "Deploying services", .StepCompleted "Deploying services"], .ok st)

/-- A concrete poll sequence for witnesses: every poll reports NoServices. -/
def pollsNoServices : Nat → PollStep :=
  fun _ => .ok .NoServices

/- ## Remote endpoint model, compose_up and prune_images
(src/deployer/docker_manager/mod.rs) -/

/-- A deterministic model of the remote endpoint as seen through
CommandExecutor::execute_command: the reply each command string receives. -/
structure Exec where
  run : String → Except ExecutorError CommandResult

/-- SshDockerManager::format_docker_compose_command (mod.rs lines 250-263). -/
def format_docker_compose_command (compose_files env_files : List String)
    (subcommand : String) : String :=
  "docker-compose" ++ String.join (compose_files.map (fun cf => " -f " ++ cf)) ++
    String.join (env_files.map (fun ef => " --env-file " ++ ef)) ++ " " ++ subcommand

/-- SshDockerManager::execute_compose_command (mod.rs lines 241-247): the
command run from the working directory; a transport error becomes a
DockerError. -/
def execute_compose_command (e : Exec) (working_directory cmd : String) :
    Except DockerError CommandResult :=
  match e.run ("cd " ++ working_directory ++ " && " ++ cmd) with
  | .ok r => .ok r
  | .error err => .error (.executor err)

/-- Model of std PathBuf::file_name on a Unix path string: the last nonempty,
non-dot component; none when that is a parent reference or there is no
component. -/
def path_file_name (p : String) : Option String :=
  match ((p.splitOn "/").filter (fun c => c != "" && c != ".")).getLast? with
  | none => none
  | some c => if c == ".." then none else some c

/-- SshDockerManager::prune_images (mod.rs lines 488-533): the preliminary
`images --format json` query is issued and its outcome ignored apart from
logging (the source wraps it in `if let Ok` and checks nothing); the prune
command itself is fatal on a transport error and on a nonzero exit. -/
def prune_images (e : Exec) (working_directory : String)
    (compose_files env_files : List String) : Except DockerError Unit :=
  let project_name := (path_file_name working_directory).getD "default"
  let images_cmd := format_docker_compose_command compose_files env_files "images --format json"
  let _images := execute_compose_command e working_directory images_cmd
  let cmd := "docker image prune -f --filter label=com.docker.compose.project=" ++ project_name
  match e.run cmd with
  | .error err => .error (.executor err)
  | .ok result =>
      if !result.is_success then .error (.commandError cmd result.output.stderr)
      else .ok ()

/-- SshDockerManager::compose_up (mod.rs lines 330-353): prune first (its
error propagates through the `?` on line 332), then pull and up, each of
which must succeed. -/
def compose_up (e : Exec) (working_directory : String)
    (compose_files env_files : List String) : Except DockerError Unit :=
  match prune_images e working_directory compose_files env_files with
  | .error err => .error err
  | .ok _ =>
      let pull_cmd := format_docker_compose_command compose_files env_files "pull"
      let up_cmd := format_docker_compose_command compose_files env_files "up -d --remove-orphans"
      match execute_compose_command e working_directory pull_cmd with
      | .error err => .error err
      | .ok r =>
          if !r.is_success then .error (.commandError pull_cmd r.output.stderr)
          else
            match execute_compose_command e working_directory up_cmd with
            | .error err => .error err
            | .ok r2 =>
                if !r2.is_success then .error (.commandError up_cmd r2.output.stderr)
                else .ok ()

/-- A concrete endpoint on which every command exits nonzero with a fixed
stderr; compose_up meets it first at the image-prune step. -/
def pruneFailExec : Exec where
  run _ :=
    .ok { command := "", output := { stdout := "", stderr := "prune refused", exit_code := 1 } }

/- ## Destroy pipeline (src/deployer/service.rs, Deployer::destroy lines 168-316) -/

/-- The remote operations Deployer::destroy can issue, in order. -/
inductive DestroyAction where
  | newManager
  | hasRunningServices
  | composeDown (remove_volumes remove_images : Bool)
  | rmDir (cmd : String)
  deriving Repr, DecidableEq

/-- The outcomes of the remote operations destroy performs: the docker
manager trait boundary modelled as an oracle of responses. -/
structure DestroyEnv where
  new_manager : Except DockerError Unit
  has_running_services : Except DockerError Bool
  compose_down : Bool → Bool → Except DockerError Unit
  rm_result : Except ExecutorError CommandResult

/-- The final summary written by destroy (service.rs lines 302-309). -/
def destroy_summary (removal_details : List String) : String :=
  "Deployment destroyed successfully (removed: " ++
    (if removal_details.isEmpty then "containers only"
     else String.intercalate ", " removal_details) ++ ")."

/-- Deployer::destroy (service.rs lines 168-316), returning the result and
the log of remote operations issued. Progress events are not modelled. -/
def destroy (env : DestroyEnv) (remote_dir : String)
    (remove_volumes remove_images force : Bool) :
    Except DeployError DeploymentStatus × List DestroyAction :=
  let status := DeploymentStatus.new
  match env.new_manager with
  | .error e => (.error (.dockerManager e), [.newManager])
  | .ok _ =>
    match env.has_running_services with
    | .error e => (.error (.dockerManager e), [.newManager, .hasRunningServices])
    | .ok services_running =>
      if services_running && !force then
        let status := { status with message := "Services are still running. Use --force to destroy anyway." }
        (.error (.deployment status.message), [.newManager, .hasRunningServices])
      else
        match env.compose_down remove_volumes remove_images with
        | .error e => (.error (.dockerManager e),
            [.newManager, .hasRunningServices, .composeDown remove_volumes remove_images])
        | .ok _ =>
          let removal_details := (if remove_volumes then ["volumes"] else []) ++
            (if remove_images then ["images"] else [])
          let acts := [DestroyAction.newManager, DestroyAction.hasRunningServices,
            DestroyAction.composeDown remove_volumes remove_images]
          if remove_volumes then
            let rm_cmd := "rm -rf " ++ remote_dir
            let acts := acts ++ [DestroyAction.rmDir rm_cmd]
            match env.rm_result with
            | .error e =>
                (.error (.deployment ("Failed to remove directory: " ++ e.display)), acts)
            | .ok rm_result =>
              if !rm_result.is_success then
                -- the failure message written here (service.rs line 285) is
                -- overwritten by the unconditional summary write (line 302)
                let status := { status with message :=
                  "Deployment destroyed (containers" ++ (if remove_volumes then "+volumes" else "") ++
                  ", images" ++ (if remove_images then "+images" else "") ++
                  "), but failed to remove project directory: " ++ rm_result.output.stderr }
                (.ok { status with message := destroy_summary removal_details }, acts)
              else
                (.ok { status with
                    message := destroy_summary (removal_details ++ ["project directory"]) }, acts)
          else
            (.ok { status with message := destroy_summary removal_details }, acts)

/-- A concrete destroy environment: no services running, compose down
succeeds, and the recursive directory deletion exits nonzero. -/
def c6Env : DestroyEnv where
  new_manager := .ok ()
  has_running_services := .ok false
  compose_down := fun _ _ => .ok ()
  rm_result := .ok
    { command := "rm -rf /opt/app"
      output := { stdout := ""
                  stderr := "rm: cannot remove /opt/app: Permission denied"
                  exit_code := 1 } }

/-- A concrete destroy environment reporting running services. -/
def c7Env : DestroyEnv where
  new_manager := .ok ()
  has_running_services := .ok true
  compose_down := fun _ _ => .ok ()
  rm_result := .ok { command := "", output := { stdout := "", stderr := "", exit_code := 0 } }

/- ## Firewall provisioner (src/deployer/firewall/ufw.rs, mod.rs) -/

/-- firewall/mod.rs Protocol. -/
inductive Protocol where
  | Tcp
  | Udp
  | Both
  deriving Repr, DecidableEq

/-- Protocol's Display. -/
def Protocol.display : Protocol → String
  | .Tcp => "tcp"
  | .Udp => "udp"
  | .Both => "tcp/udp"

/-- From&lt;&amp;str&gt; for Protocol: lowercase tcp and udp, anything else Both. -/
def Protocol.ofStr (s : String) : Protocol :=
  match s.toLower with
  | "tcp" => .Tcp
  | "udp" => .Udp
  | _ => .Both

/-- firewall/mod.rs PortConfig. -/
structure PortConfig where
  port : Nat
  protocol : Protocol
  description : String

/-- composer/types.rs PortMapping, the exposed-port record consumed by
configure_firewall. -/
structure PortMapping where
  mode : Option String
  target : Nat
  published : String
  protocol : Option String

/-- UfwManager::extract_port_from_rule (ufw.rs lines 97-104): the first
whitespace token containing a slash. -/
def extract_port_from_rule (rule : String) : Option String :=
  (splitWhitespace rule).find? (fun p => p.contains '/')

/-- UfwManager::get_opened_ports (ufw.rs lines 75-94): parse the numbered
status listing; exit status is not inspected, only a transport error fails. -/
def get_opened_ports (e : Exec) : Except DeployError (List String) :=
  match e.run "ufw status numbered" with
  | .error err => .error (.firewall ("Failed to get UFW status: " ++ err.display))
  | .ok result =>
      .ok (((result.output.stdout.splitOn "\n").filter
        (fun line => containsSub line "ALLOW")).filterMap extract_port_from_rule)

/-- UfwManager::ensure_ufw (ufw.rs lines 15-54). -/
def ensure_ufw (e : Exec) : Except DeployError Unit :=
  match e.run "which ufw" with
  | .error err => .error (.firewall ("Failed to check UFW: " ++ err.display))
  | .ok result =>
    let install : Except DeployError Unit :=
      if !result.is_success then
        match e.run "apt-get update && apt-get install -y ufw" with
        | .error err => .error (.firewall ("Failed to install UFW: " ++ err.display))
        | .ok _ => .ok ()
      else .ok ()
    match install with
    | .error err => .error err
    | .ok _ =>
      match e.run "ufw status" with
      | .error err => .error (.firewall ("Failed to check UFW status: " ++ err.display))
      | .ok st =>
        if !(containsSub st.output.stdout "Status: active") then
          match e.run "ufw allow 22/tcp" with
          | .error err => .error (.firewall ("Failed to allow SSH: " ++ err.display))
          | .ok _ =>
            match e.run "echo 'y' | ufw enable" with
            | .error err => .error (.firewall ("Failed to enable UFW: " ++ err.display))
            | .ok _ => .ok ()
        else .ok ()

/-- UfwManager::is_port_configured (ufw.rs lines 107-115). -/
def is_port_configured (current_ports : List String) (config : PortConfig) : Bool :=
  match config.protocol with
  | .Both =>
      current_ports.contains (toString config.port ++ "/tcp") &&
        current_ports.contains (toString config.port ++ "/udp")
  | _ => current_ports.contains (toString config.port ++ "/" ++ config.protocol.display)

/-- UfwManager::add_single_port_rule (ufw.rs lines 142-163). -/
def add_single_port_rule (e : Exec) (port : Nat) (protocol comment : String) :
    Except DeployError Unit :=
  let cmd := "ufw allow " ++ toString port ++ "/" ++ protocol ++ " comment '" ++
    comment.replace "'" "\\'" ++ "'"
  match e.run cmd with
  | .error err => .error (.firewall ("Failed to add port rule " ++ toString port ++ "/" ++
      protocol ++ ": " ++ err.display))
  | .ok _ => .ok ()

/-- UfwManager::add_port_rule (ufw.rs lines 118-139): a Both rule expands
into independent tcp and udp rules. -/
def add_port_rule (e : Exec) (config : PortConfig) : Except DeployError Unit :=
  let comment := if config.description == "" then "Managed by DCD"
    else "DCD: " ++ config.description
  match config.protocol with
  | .Both =>
      match add_single_port_rule e config.port "tcp" comment with
      | .error err => .error err
      | .ok _ => add_single_port_rule e config.port "udp" comment
  | _ => add_single_port_rule e config.port config.protocol.display comment

/-- The per-port loop of UfwManager::configure_ports (ufw.rs lines 64-69). -/
def configure_each (e : Exec) (current_ports : List String) :
    List PortConfig → Except DeployError Unit
  | [] => .ok ()
  | config :: rest =>
      if !(is_port_configured current_ports config) then
        match add_port_rule e config with
        | .error err => .error err
        | .ok _ => configure_each e current_ports rest
      else configure_each e current_ports rest

/-- UfwManager::configure_ports (ufw.rs lines 57-72). -/
def configure_ports (e : Exec) (ports : List PortConfig) : Except DeployError Unit :=
  match ensure_ufw e with
  | .error err => .error err
  | .ok _ =>
    match get_opened_ports e with
    | .error err => .error err
    | .ok current_ports => configure_each e current_ports ports

/-- UfwManager::verify_port (ufw.rs lines 166-190): for tcp (and both) a
local nc connect probe, early-returning false on a nonzero exit; for udp
(and both) only presence of the udp rule in the opened-ports listing. -/
def verify_port (e : Exec) (port : Nat) (protocol : Protocol) :
    Except DeployError Bool :=
  let tcp_step : Except DeployError Bool :=
    if protocol == .Tcp || protocol == .Both then
      match e.run ("nc -z -v localhost " ++ toString port) with
      | .error err => .error (.firewall err.display)
      | .ok result => .ok result.is_success
    else .ok true
  match tcp_step with
  | .error err => .error err
  | .ok probe =>
    if !probe then .ok false
    else if protocol == .Udp || protocol == .Both then
      match get_opened_ports e with
      | .error err => .error err
      | .ok ports => .ok (ports.contains (toString port ++ "/udp"))
    else .ok true

/-- The verification loop of Deployer::configure_firewall (service.rs lines
509-521): a port that verifies false writes the warning message and sets
ports_changed, and the loop continues; only a transport error aborts. -/
def verify_ports_loop (e : Exec) :
    List PortConfig → DeploymentStatus → Except DeployError DeploymentStatus
  | [], status => .ok status
  | config :: rest, status =>
      match verify_port e config.port config.protocol with
      | .error err => .error err
      | .ok accessible =>
          if !accessible then
            verify_ports_loop e rest { status with
              message := "Port " ++ toString config.port ++ " is not accessible"
              ports_changed := true }
          else verify_ports_loop e rest status

/-- Deployer::configure_firewall (service.rs lines 477-524): skip when no
ports are exposed; build the port configs; configure; then run the
verification loop, which never fails the step on an inaccessible port. -/
def configure_firewall (e : Exec) (exposed_ports : List PortMapping)
    (status : DeploymentStatus) : Except DeployError DeploymentStatus :=
  if exposed_ports.isEmpty then .ok status
  else
    let port_configs := exposed_ports.map (fun port =>
      { port := port.target, protocol := Protocol.ofStr ((port.protocol).getD "tcp"),
        description := "Docker service port " ++ port.published : PortConfig })
    match configure_ports e port_configs with
    | .error err => .error err
    | .ok _ => verify_ports_loop e port_configs status

/- ## File synchronization (src/deployer/sync/files.rs, sync/mod.rs) -/

/-- sync/mod.rs SyncPair. -/
structure SyncPair where
  local_path : String
  remote_path : String
  is_directory : Bool

/-- sync/mod.rs SyncPlan with its four buckets. -/
structure SyncPlan where
  files : List SyncPair
  env_files : List SyncPair
  compose_files : List SyncPair
  reference_files : List SyncPair

/-- The fixed bucket order FileSync::sync_files processes (files.rs lines
35-53): compose, env, reference, other. -/
def SyncPlan.allPairs (p : SyncPlan) : List SyncPair :=
  p.compose_files ++ p.env_files ++ p.reference_files ++ p.files

/-- files.rs FileSyncStatus. -/
structure FileSyncStatus where
  files_synced : List String
  files_skipped : List String
  files_failed : List (String × String)
  deriving Repr, DecidableEq

/-- FileSyncStatus::default. -/
def FileSyncStatus.empty : FileSyncStatus :=
  { files_synced := [], files_skipped := [], files_failed := [] }

/-- A stateful model of the remote endpoint for synchronization: run and
upload both act on a remote state of type sigma (the SSH transport threads
one session through every call). -/
structure SyncExec (σ : Type) where
  run : σ → String → σ × Except ExecutorError CommandResult
  upload : σ → String → String → σ × Except ExecutorError Unit

/-- files.rs sha256_file: the content hash of a local file; hash stands for
the sha2 crate's SHA-256 hex digest, localFs for the local filesystem. -/
def sha256_file (hash : String → String) (localFs : String → Option String)
    (path : String) : Except DeployError String :=
  match localFs path with
  | none => .error (.fileSync "Failed to open file")
  | some content => .ok (hash content)

/-- FileSync::should_sync_file (files.rs lines 128-148): query the remote
checksum; on a transport error or a nonzero exit decide to sync; on success
compare the first whitespace token of stdout against the local hash (an
empty stdout is an error). -/
def should_sync_file {σ : Type} (E : SyncExec σ) (hash : String → String)
    (localFs : String → Option String) (s : σ) (pair : SyncPair) :
    σ × Except DeployError Bool :=
  let check_cmd := "sha256sum " ++ pair.remote_path
  match E.run s check_cmd with
  | (s1, .ok result) =>
      if result.is_success then
        match (splitWhitespace result.output.stdout).head? with
        | none => (s1, .error (.fileSync "Invalid checksum output"))
        | some remote_sum =>
            match sha256_file hash localFs pair.local_path with
            | .error err => (s1, .error err)
            | .ok local_sum => (s1, .ok (local_sum != remote_sum))
      else (s1, .ok true)
  | (s1, .error _) => (s1, .ok true)

/-- The non-directory arm of FileSync::sync_file (files.rs lines 58-87);
the is_directory arm delegates to the recursive directory mirroring and the
claims quantify over non-directory pairs. -/
def sync_regular_file {σ : Type} (E : SyncExec σ) (hash : String → String)
    (localFs : String → Option String) (s : σ) (pair : SyncPair)
    (status : FileSyncStatus) : σ × FileSyncStatus × Except DeployError Unit :=
  match should_sync_file E hash localFs s pair with
  | (s1, .error err) => (s1, status, .error err)
  | (s1, .ok true) =>
      match E.upload s1 pair.local_path pair.remote_path with
      | (s2, .ok _) =>
          (s2, { status with files_synced := status.files_synced ++ [pair.local_path] }, .ok ())
      | (s2, .error err) =>
          (s2, { status with
              files_failed := status.files_failed ++ [(pair.local_path, err.display)] },
            .error (.fileSync ("Failed to sync file " ++ pair.local_path ++ ": " ++ err.display)))
  | (s1, .ok false) =>
      (s1, { status with files_skipped := status.files_skipped ++ [pair.local_path] }, .ok ())

/-- The sequential pair walk of FileSync::sync_files: any failure aborts the
whole synchronization. -/
def sync_pairs {σ : Type} (E : SyncExec σ) (hash : String → String)
    (localFs : String → Option String) :
    List SyncPair → σ → FileSyncStatus → σ × FileSyncStatus × Except DeployError Unit
  | [], s, status => (s, status, .ok ())
  | pair :: rest, s, status =>
      match sync_regular_file E hash localFs s pair status with
      | (s1, st1, .ok _) => sync_pairs E hash localFs rest s1 st1
      | (s1, st1, .error err) => (s1, st1, .error err)

/-- FileSync::sync_files (files.rs lines 29-56): ensure the remote root (only
a transport error aborts, the exit code is not inspected), then process the
buckets in their fixed order. -/
def sync_files {σ : Type} (E : SyncExec σ) (hash : String → String)
    (localFs : String → Option String) (remote_root : String) (plan : SyncPlan)
    (s : σ) : σ × FileSyncStatus × Except DeployError Unit :=
  match E.run s ("mkdir -p " ++ remote_root) with
  | (s1, .error err) =>
      (s1, FileSyncStatus.empty,
        .error (.fileSync ("Failed to create remote directory: " ++ err.display)))
  | (s1, .ok _) => sync_pairs E hash localFs plan.allPairs s1 FileSyncStatus.empty

end Dcd

namespace Dcd

/-- C1 helper: the set-membership form of the stored-key scan. -/
theorem any_beq_iff_mem (ks : List PublicKey) (key : PublicKey) :
    ks.any (fun k => k == key) = true ↔ key ∈ ks := by
  simp only [List.any_eq_true, beq_iff_eq]
  constructor
  · rintro ⟨x, hx, hxe⟩
    exact hxe ▸ hx
  · intro hk
    exact ⟨key, hk, rfl⟩

/-- C1: host present and presented key stored → accept silently; host present
and key matches none → reject with the mismatch error; host absent → accept,
printing the unknown-host warning exactly when suppression is off. -/
theorem c1_host_key_trust (h : ClientHandler) (key : PublicKey) :
    (∀ ks, mapGet h.trusted_keys h.target_host = some ks →
      ((key ∈ ks → check_server_key h key =
          { accept := true, printedMismatchError := false, printedUnknownWarning := false }) ∧
       (key ∉ ks → check_server_key h key =
          { accept := false, printedMismatchError := true, printedUnknownWarning := false }))) ∧
    (mapGet h.trusted_keys h.target_host = none →
      check_server_key h key =
        { accept := true, printedMismatchError := false,
          printedUnknownWarning := !h.suppress_unknown_host_warning }) := by
  constructor
  · intro ks hks
    constructor
    · intro hmem
      have hb : ks.any (fun k => k == key) = true := (any_beq_iff_mem ks key).mpr hmem
      unfold check_server_key
      rw [hks]
      simp only [hb, if_true]
    · intro hmem
      have hb : ks.any (fun k => k == key) = false := by
        rcases hx : ks.any (fun k => k == key) with _ | _
        · rfl
        · exact absurd ((any_beq_iff_mem ks key).mp hx) hmem
      unfold check_server_key
      rw [hks]
      simp only [hb, Bool.false_eq_true, if_false]
  · intro hnone
    unfold check_server_key
    rw [hnone]

/-- C10: a missing known-hosts file yields an empty trust map (not an error),
under which every host is absent from the store and the connection proceeds
trust-on-first-use; an unreadable existing file aborts with an error. -/
theorem c10_missing_known_hosts (parseKey : String → Option PublicKey)
    (r : Except String String) (host : String) (suppress : Bool) (key : PublicKey)
    (e : String) :
    load_known_hosts parseKey false r = .ok [] ∧
    (∀ m, load_known_hosts parseKey false r = .ok m →
      check_server_key ⟨host, m, suppress⟩ key =
        { accept := true, printedMismatchError := false,
          printedUnknownWarning := !suppress }) ∧
    load_known_hosts parseKey true (.error e) =
      .error (.sshError ("Failed to read known_hosts file: " ++ e)) := by
  refine ⟨rfl, ?_, rfl⟩
  intro m hm
  have hm0 : m = [] := by
    simpa [load_known_hosts] using hm.symm
  subst hm0
  simp [check_server_key, mapGet]

/-- C2 helper: the accumulation loop of verify_services_healthy collects, in
input order, exactly the running-with-health-starting non-healthy services and
the remaining non-healthy services. -/
theorem classify_services_go (services : List ServiceStatus)
    (acc : List UnhealthyService × List UnhealthyService) :
    services.foldl
      (fun acc s =>
        if s.is_running && (s.health == "" || s.health == "healthy") then acc
        else if s.is_running && s.health == "starting" then (acc.1 ++ [to_unhealthy s], acc.2)
        else (acc.1, acc.2 ++ [to_unhealthy s]))
      acc =
    (acc.1 ++ (services.filter (fun s =>
        !s.is_healthy && (s.is_running && s.health == "starting"))).map to_unhealthy,
     acc.2 ++ (services.filter (fun s =>
        !s.is_healthy && !(s.is_running && s.health == "starting"))).map to_unhealthy) := by
  induction services generalizing acc with
  | nil => simp
  | cons s rest ih =>
    rw [List.foldl_cons, ih, List.filter_cons, List.filter_cons]
    by_cases hh : (s.is_running && (s.health == "" || s.health == "healthy")) = true
    · have hh2 : s.is_healthy = true := hh
      simp [hh, hh2]
    · have hh2 : s.is_healthy = false := by
        simpa [ServiceStatus.is_healthy] using hh
      by_cases hs : (s.is_running && s.health == "starting") = true
      · simp [hh, hh2, hs]
      · simp [hh, hh2, hs]

/-- C2: a service is healthy iff its state is running and its health field is
empty or healthy; the non-healthy services split into starting (running with
health starting) and failed (the rest); verify_services_healthy reports Failed
(failed then starting) when any service failed, else Starting, NoServices on
an empty list, else Healthy; and one failed service forces Failed. -/
theorem c2_health_classification (services : List ServiceStatus) :
    (∀ s : ServiceStatus,
        s.is_healthy = (s.state == "running" && (s.health == "" || s.health == "healthy"))) ∧
    verify_services_healthy services =
      (let failed := (services.filter (fun s =>
          !s.is_healthy && !(s.is_running && s.health == "starting"))).map to_unhealthy
       let starting := (services.filter (fun s =>
          !s.is_healthy && (s.is_running && s.health == "starting"))).map to_unhealthy
       if !failed.isEmpty then HealthCheckResult.Failed (failed ++ starting)
       else if !starting.isEmpty then HealthCheckResult.Starting starting
       else if services.isEmpty then HealthCheckResult.NoServices
       else HealthCheckResult.Healthy) ∧
    (∀ s ∈ services, (!s.is_healthy && !(s.is_running && s.health == "starting")) = true →
       ∃ l, verify_services_healthy services = HealthCheckResult.Failed l) := by
  have hmain : verify_services_healthy services =
      (let failed := (services.filter (fun s =>
          !s.is_healthy && !(s.is_running && s.health == "starting"))).map to_unhealthy
       let starting := (services.filter (fun s =>
          !s.is_healthy && (s.is_running && s.health == "starting"))).map to_unhealthy
       if !failed.isEmpty then HealthCheckResult.Failed (failed ++ starting)
       else if !starting.isEmpty then HealthCheckResult.Starting starting
       else if services.isEmpty then HealthCheckResult.NoServices
       else HealthCheckResult.Healthy) := by
    cases services with
    | nil => simp [verify_services_healthy]
    | cons s rest =>
      unfold verify_services_healthy classify_services
      rw [classify_services_go]
      simp
  refine ⟨fun s => rfl, hmain, ?_⟩
  intro s hs hpred
  have hmem : s ∈ services.filter (fun s =>
      !s.is_healthy && !(s.is_running && s.health == "starting")) :=
    List.mem_filter.mpr ⟨hs, hpred⟩
  rw [hmain]
  rcases hfl : services.filter (fun s =>
      !s.is_healthy && !(s.is_running && s.health == "starting")) with _ | ⟨a, tl⟩
  · rw [hfl] at hmem
    cases hmem
  · refine ⟨List.map to_unhealthy (a :: tl) ++ (services.filter (fun s =>
        !s.is_healthy && (s.is_running && s.health == "starting"))).map to_unhealthy, ?_⟩
    simp only [hfl]
    rfl

/-- C3: one step of the retry loop, as a function of that attempt's
classification: Healthy and NoServices terminate immediately; Failed retries
while the short budget is not exhausted and otherwise terminates with the
failed-services detail; Starting retries while the long budget is not
exhausted and otherwise terminates with the timeout report; a poll error
terminates immediately and is never retried. Both budgets are tested against
the same incremented attempt counter. -/
theorem c3_health_retry_loop (polls : Nat → PollStep) (attempts : Nat)
    (status : DeploymentStatus) :
    (polls (attempts + 1) = .ok .Healthy →
      health_check_loop polls attempts status =
        ({ status with services_healthy := true }, .healthy)) ∧
    (polls (attempts + 1) = .ok .NoServices →
      health_check_loop polls attempts status =
        ({ status with services_healthy := false, message := "No services were found after deployment." }, .noServices)) ∧
    (∀ l, polls (attempts + 1) = .ok (.Failed l) →
      (attempts + 1 < HEALTH_CHECK_RETRIES →
        health_check_loop polls attempts status = health_check_loop polls (attempts + 1) status) ∧
      (¬ attempts + 1 < HEALTH_CHECK_RETRIES →
        health_check_loop polls attempts status =
          ({ status with services_healthy := false, message := failed_terminal_message (attempts + 1) l }, .failedTerminal))) ∧
    (∀ l, polls (attempts + 1) = .ok (.Starting l) →
      (attempts + 1 < MAX_STARTING_ATTEMPTS →
        health_check_loop polls attempts status = health_check_loop polls (attempts + 1) status) ∧
      (¬ attempts + 1 < MAX_STARTING_ATTEMPTS →
        health_check_loop polls attempts status =
          ({ status with services_healthy := false, message := starting_timeout_message (attempts + 1) l }, .startingTimeout))) ∧
    (∀ e, polls (attempts + 1) = .error e →
      health_check_loop polls attempts status =
        ({ status with services_healthy := false, message := "Error checking service health: " ++ e.display }, .pollError)) := by
  refine ⟨?_, ?_, ?_, ?_, ?_⟩
  · intro hp
    conv_lhs => unfold health_check_loop
    simp [hp]
  · intro hp
    conv_lhs => unfold health_check_loop
    simp [hp]
  · intro l hp
    constructor
    · intro hlt
      conv_lhs => unfold health_check_loop
      simp [hp, hlt]
    · intro hge
      conv_lhs => unfold health_check_loop
      simp [hp, hge]
  · intro l hp
    constructor
    · intro hlt
      conv_lhs => unfold health_check_loop
      simp [hp, hlt]
    · intro hge
      conv_lhs => unfold health_check_loop
      simp [hp, hge]
  · intro e hp
    conv_lhs => unfold health_check_loop
    simp [hp]

/-- Helper: a string append with a nonempty left part is nonempty. -/
theorem append_ne_empty_left (a b : String) (h : a.length ≠ 0) : a ++ b ≠ "" := by
  intro he
  have hlen := congrArg String.length he
  simp [String.length_append] at hlen
  exact h hlen.1

/-- Helper: a string append with a nonempty right part is nonempty. -/
theorem append_ne_empty_right (a b : String) (h : b.length ≠ 0) : a ++ b ≠ "" := by
  intro he
  have hlen := congrArg String.length he
  simp [String.length_append] at hlen
  exact h hlen.2

/-- C9 helper: the retry loop never touches the files/env/ports flags of the
status, and on every exit other than healthy it clears services_healthy and
writes a nonempty message. -/
theorem health_check_loop_spec (polls : Nat → PollStep) :
    ∀ (fuel attempts : Nat) (status : DeploymentStatus),
      MAX_STARTING_ATTEMPTS ≤ attempts + fuel →
      (health_check_loop polls attempts status).1.files_changed = status.files_changed ∧
      (health_check_loop polls attempts status).1.env_changed = status.env_changed ∧
      (health_check_loop polls attempts status).1.ports_changed = status.ports_changed ∧
      ((health_check_loop polls attempts status).2 ≠ .healthy →
        (health_check_loop polls attempts status).1.services_healthy = false ∧
        (health_check_loop polls attempts status).1.message ≠ "") := by
  intro fuel
  induction fuel with
  | zero =>
    intro attempts status hle
    have hn15 : ¬ attempts + 1 < MAX_STARTING_ATTEMPTS := by
      simp only [MAX_STARTING_ATTEMPTS] at *
      omega
    have hn5 : ¬ attempts + 1 < HEALTH_CHECK_RETRIES := by
      simp only [HEALTH_CHECK_RETRIES, MAX_STARTING_ATTEMPTS] at *
      omega
    unfold health_check_loop
    rcases hp : polls (attempts + 1) with r | e
    · rcases r with _ | l | l | _
      · simp [hp]
      · simp [hp, hn15]
        exact append_ne_empty_right _ _ (by decide)
      · simp [hp, hn5]
        exact append_ne_empty_right _ _ (by decide)
      · simp [hp]
    · simp [hp]
      exact append_ne_empty_left _ _ (by decide)
  | succ n ih =>
    intro attempts status hle
    unfold health_check_loop
    rcases hp : polls (attempts + 1) with r | e
    · rcases r with _ | l | l | _
      · simp [hp]
      · by_cases hlt : attempts + 1 < MAX_STARTING_ATTEMPTS
        · simpa [hp, hlt] using ih (attempts + 1) status (by omega)
        · simp [hp, hlt]
          exact append_ne_empty_right _ _ (by decide)
      · by_cases hlt : attempts + 1 < HEALTH_CHECK_RETRIES
        · simpa [hp, hlt] using ih (attempts + 1) status (by omega)
        · simp [hp, hlt]
          exact append_ne_empty_right _ _ (by decide)
      · simp [hp]
    · simp [hp]
      exact append_ne_empty_left _ _ (by decide)

/-- C9: a terminal health-check failure does not fail the deploy pipeline:
when the retry loop ends other than Healthy (Failed budget exhausted,
Starting budget exhausted, NoServices, or a polling error), deploy_services
still returns Ok, the Deploying Services step emits step-completed (not
step-failed), and the returned status carries services_healthy = false with
the failure detail in its message field and the other flags untouched. -/
theorem c9_terminal_health_not_fatal (polls : Nat → PollStep)
    (status0 st : DeploymentStatus) (ex : LoopExit)
    (hr : health_check_loop polls 0 status0 = (st, ex)) (hne : ex ≠ .healthy) :
    deploy_services (.ok ()) polls status0 = .ok st ∧
    st.services_healthy = false ∧
    st.message ≠ "" ∧
    st.files_changed = status0.files_changed ∧
    st.env_changed = status0.env_changed ∧
    st.ports_changed = status0.ports_changed ∧
    deploy_step4 (deploy_services (.ok ()) polls status0) =
      ([.StepStarted "Deploying services", .StepCompleted "Deploying services"], .ok st) := by
  have h := health_check_loop_spec polls MAX_STARTING_ATTEMPTS 0 status0
    (by simp [MAX_STARTING_ATTEMPTS])
  rw [hr] at h
  simp only at h
  obtain ⟨h1, h2, h3, h4⟩ := h
  obtain ⟨h5, h6⟩ := h4 hne
  refine ⟨?_, h5, h6, h1, h2, h3, ?_⟩
  · simp [deploy_services, hr]
  · simp [deploy_step4, deploy_services, hr]

/-- C9 witness: a run where every poll reports NoServices ends the step in
step-completed with Ok and an unhealthy status. -/
theorem c9_terminal_health_not_fatal_witness :
    deploy_services (.ok ()) pollsNoServices DeploymentStatus.new =
      .ok { files_changed := false, env_changed := false, ports_changed := false,
            services_healthy := false,
            message := "No services were found after deployment." } :=
  (c9_terminal_health_not_fatal pollsNoServices DeploymentStatus.new
    { files_changed := false, env_changed := false, ports_changed := false,
      services_healthy := false,
      message := "No services were found after deployment." } .noServices
    (by simp [health_check_loop, pollsNoServices, DeploymentStatus.new])
    (by decide)).1

/-- C4 counterexample: an endpoint on which the prune command fails; the
prune error is returned by compose_up itself, so a prune failure does cause
start_services to return an error. -/
theorem c4_prune_error_counterexample :
    ∃ err, prune_images pruneFailExec "/opt/app" ["docker-compose.yml"] [] = .error err ∧
      compose_up pruneFailExec "/opt/app" ["docker-compose.yml"] [] = .error err :=
  ⟨_, rfl, rfl⟩

/-- C4 amended: a failure of the image-prune step (transport error or nonzero
exit of the prune command) propagates: compose_up returns exactly that error
and never reaches pull and up; only the preliminary images-listing query
inside prune_images is best-effort. -/
theorem c4_prune_error_propagates (e : Exec) (working_directory : String)
    (compose_files env_files : List String) (err : DockerError)
    (h : prune_images e working_directory compose_files env_files = .error err) :
    compose_up e working_directory compose_files env_files = .error err := by
  simp [compose_up, h]

/-- C4 witness: the amended propagation applied to a concrete endpoint. -/
theorem c4_prune_error_propagates_witness :
    ∃ err, compose_up pruneFailExec "/opt/app" ["docker-compose.yml"] [] = .error err :=
  ⟨_, c4_prune_error_propagates pruneFailExec "/opt/app" ["docker-compose.yml"] [] _ rfl⟩

/-- C6: evaluating destroy where the recursive directory deletion exits
nonzero: destroy still returns Ok, but the returned message is the
unconditional success summary (the failure text written at service.rs line
285 is overwritten at line 302, and project directory is merely absent from
the removed list); with remove_volumes = false no deletion is issued at all. -/
theorem c6_rm_failure_eval :
    (destroy c6Env "/opt/app" true false false).1 =
      .ok { files_changed := false, env_changed := false, ports_changed := false,
            services_healthy := false,
            message := "Deployment destroyed successfully (removed: volumes)." } ∧
    (destroy c6Env "/opt/app" true false false).2 =
      [.newManager, .hasRunningServices, .composeDown true false, .rmDir "rm -rf /opt/app"] ∧
    (destroy c6Env "/opt/app" false false false).2 =
      [.newManager, .hasRunningServices, .composeDown false false] :=
  ⟨rfl, rfl, rfl⟩

/-- C7: with running services reported and no force flag, destroy returns an
error and neither compose_down nor the directory deletion is ever issued. -/
theorem c7_destroy_force_gate (env : DestroyEnv) (remote_dir : String)
    (remove_volumes remove_images : Bool)
    (h : env.has_running_services = .ok true) :
    (∃ e, (destroy env remote_dir remove_volumes remove_images false).1 = .error e) ∧
    (∀ a ∈ (destroy env remote_dir remove_volumes remove_images false).2,
      (∀ rv ri, a ≠ .composeDown rv ri) ∧ (∀ c, a ≠ .rmDir c)) := by
  cases hnm : env.new_manager with
  | error e =>
    constructor
    · exact ⟨.dockerManager e, by simp [destroy, hnm]⟩
    · intro a ha
      simp [destroy, hnm] at ha
      subst ha
      constructor
      · intro rv ri hc
        cases hc
      · intro c hc
        cases hc
  | ok u =>
    constructor
    · refine ⟨.deployment "Services are still running. Use --force to destroy anyway.", ?_⟩
      simp [destroy, hnm, h]
    · intro a ha
      simp [destroy, hnm, h] at ha
      rcases ha with rfl | rfl
      · exact ⟨(fun rv ri hc => nomatch hc), (fun c hc => nomatch hc)⟩
      · exact ⟨(fun rv ri hc => nomatch hc), (fun c hc => nomatch hc)⟩

/-- C7 witness: the gate applied to a concrete environment with running
services. -/
theorem c7_destroy_force_gate_witness :
    (∃ e, (destroy c7Env "/opt/app" true true false).1 = .error e) ∧
    (∀ a ∈ (destroy c7Env "/opt/app" true true false).2,
      (∀ rv ri, a ≠ .composeDown rv ri) ∧ (∀ c, a ≠ .rmDir c)) :=
  c7_destroy_force_gate c7Env "/opt/app" true true rfl

/-- C8 helper: when every verification answers (no transport error), the
verification loop returns Ok; the status is untouched when every port
verified true, and when some port verified false the returned status has
ports_changed set and carries the not-accessible warning of such a port. -/
theorem verify_ports_loop_spec (e : Exec) :
    ∀ (configs : List PortConfig) (status : DeploymentStatus),
      (∀ c ∈ configs, ∃ b, verify_port e c.port c.protocol = .ok b) →
      ∃ st2, verify_ports_loop e configs status = .ok st2 ∧
        ((∀ c ∈ configs, verify_port e c.port c.protocol ≠ .ok false) → st2 = status) ∧
        ((∃ c ∈ configs, verify_port e c.port c.protocol = .ok false) →
          st2.ports_changed = true ∧
          ∃ c ∈ configs, verify_port e c.port c.protocol = .ok false ∧
            st2.message = "Port " ++ toString c.port ++ " is not accessible") := by
  intro configs
  induction configs with
  | nil =>
    intro status _
    refine ⟨status, rfl, fun _ => rfl, ?_⟩
    rintro ⟨c, hc, _⟩
    cases hc
  | cons c rest ih =>
    intro status hok
    obtain ⟨b, hb⟩ := hok c (List.mem_cons_self c rest)
    have hok2 : ∀ x ∈ rest, ∃ b, verify_port e x.port x.protocol = .ok b :=
      fun x hx => hok x (List.mem_cons_of_mem c hx)
    cases b with
    | true =>
      obtain ⟨st2, h1, h2, h3⟩ := ih status hok2
      refine ⟨st2, ?_, ?_, ?_⟩
      · simp [verify_ports_loop, hb, h1]
      · intro hall
        exact h2 (fun x hx => hall x (List.mem_cons_of_mem c hx))
      · rintro ⟨x, hx, hfx⟩
        rcases List.mem_cons.mp hx with rfl | hx2
        · rw [hb] at hfx
          cases hfx
        · obtain ⟨hpc, y, hy, hfy, hmsg⟩ := h3 ⟨x, hx2, hfx⟩
          exact ⟨hpc, y, List.mem_cons_of_mem c hy, hfy, hmsg⟩
    | false =>
      obtain ⟨st2, h1, h2, h3⟩ := ih { status with
        message := "Port " ++ toString c.port ++ " is not accessible"
        ports_changed := true } hok2
      refine ⟨st2, ?_, ?_, ?_⟩
      · simp [verify_ports_loop, hb]
        exact h1
      · intro hall
        exact absurd hb (hall c (List.mem_cons_self c rest))
      · intro _
        by_cases hrest : ∀ x ∈ rest, verify_port e x.port x.protocol ≠ .ok false
        · have hst2 := h2 hrest
          subst hst2
          exact ⟨rfl, c, List.mem_cons_self c rest, hb, rfl⟩
        · push_neg at hrest
          obtain ⟨x, hx, hfx⟩ := hrest
          obtain ⟨hpc, y, hy, hfy, hmsg⟩ := h3 ⟨x, hx, hfx⟩
          exact ⟨hpc, y, List.mem_cons_of_mem c hy, hfy, hmsg⟩

/-- C8: verify_port for udp is exactly rule presence in the opened-ports
listing; for tcp it is exactly the nc connect probe's exit status; and when
every per-port verification answers, the verification phase of the Configure
Firewall step returns Ok, recording an inaccessible port only as the warning
message and the ports_changed flag of the status. -/
theorem c8_firewall_verification (e : Exec) (port : Nat)
    (configs : List PortConfig) (status : DeploymentStatus) :
    (verify_port e port .Udp =
      (match get_opened_ports e with
       | .error err => .error err
       | .ok ports => .ok (ports.contains (toString port ++ "/udp")))) ∧
    (∀ r, e.run ("nc -z -v localhost " ++ toString port) = .ok r →
      verify_port e port .Tcp = .ok r.is_success) ∧
    ((∀ c ∈ configs, ∃ b, verify_port e c.port c.protocol = .ok b) →
      ∃ st2, verify_ports_loop e configs status = .ok st2 ∧
        ((∀ c ∈ configs, verify_port e c.port c.protocol ≠ .ok false) → st2 = status) ∧
        ((∃ c ∈ configs, verify_port e c.port c.protocol = .ok false) →
          st2.ports_changed = true ∧
          ∃ c ∈ configs, verify_port e c.port c.protocol = .ok false ∧
            st2.message = "Port " ++ toString c.port ++ " is not accessible")) := by
  refine ⟨?_, ?_, fun hok => verify_ports_loop_spec e configs status hok⟩
  · rfl
  · intro r hr
    cases hs : r.is_success with
    | true => simp [verify_port, hr, hs]
    | false => simp [verify_port, hr, hs]

/-- C5 helper: a plan whose remote checksums all match the local hashes is
walked without a single upload: every pair is skipped and the remote state
is unchanged. -/
theorem sync_pairs_all_skip {σ : Type} (E : SyncExec σ) (hash : String → String)
    (localFs : String → Option String) :
    ∀ (pairs : List SyncPair) (s : σ) (st : FileSyncStatus),
      (∀ (s2 : σ) (pair : SyncPair), pair ∈ pairs →
        ∃ c res, localFs pair.local_path = some c ∧
          E.run s2 ("sha256sum " ++ pair.remote_path) = (s2, .ok res) ∧
          res.is_success = true ∧
          (splitWhitespace res.output.stdout).head? = some (hash c)) →
      sync_pairs E hash localFs pairs s st =
        (s, { st with files_skipped := st.files_skipped ++ pairs.map (fun p => p.local_path) },
          .ok ()) := by
  intro pairs
  induction pairs with
  | nil =>
    intro s st _
    simp [sync_pairs]
  | cons pair rest ih =>
    intro s st h
    obtain ⟨c, res, hl, hrun, hsucc, hhead⟩ := h s pair (List.mem_cons_self pair rest)
    have hdec : should_sync_file E hash localFs s pair = (s, .ok false) := by
      simp [should_sync_file, hrun, hsucc, hhead, sha256_file, hl]
    have hstep : sync_regular_file E hash localFs s pair st =
        (s, { st with files_skipped := st.files_skipped ++ [pair.local_path] }, .ok ()) := by
      simp [sync_regular_file, hdec]
    have hrest : ∀ (s2 : σ) (p : SyncPair), p ∈ rest →
        ∃ c res, localFs p.local_path = some c ∧
          E.run s2 ("sha256sum " ++ p.remote_path) = (s2, .ok res) ∧
          res.is_success = true ∧
          (splitWhitespace res.output.stdout).head? = some (hash c) :=
      fun s2 p hp => h s2 p (List.mem_cons_of_mem pair hp)
    have hih := ih s { st with files_skipped := st.files_skipped ++ [pair.local_path] } hrest
    simp [sync_pairs, hstep, hih]

/-- C5: the per-file sync decision is upload exactly when the remote checksum
query fails (transport error or nonzero exit) or the first token of its
output differs from the local SHA-256, and skip exactly on equality (a skip
touches nothing but the skipped list); consequently a sync over a plan whose
remote contents already reflect the local files performs zero uploads — every
file is skipped and the remote state is unchanged. -/
theorem c5_sync_decision_idempotence :
    (∀ (σ : Type) (E : SyncExec σ) (hash : String → String)
        (localFs : String → Option String) (s : σ) (pair : SyncPair),
      (∀ s1 err, E.run s ("sha256sum " ++ pair.remote_path) = (s1, .error err) →
        should_sync_file E hash localFs s pair = (s1, .ok true)) ∧
      (∀ s1 r, E.run s ("sha256sum " ++ pair.remote_path) = (s1, .ok r) →
        r.is_success = false → should_sync_file E hash localFs s pair = (s1, .ok true)) ∧
      (∀ s1 r t c, E.run s ("sha256sum " ++ pair.remote_path) = (s1, .ok r) →
        r.is_success = true → (splitWhitespace r.output.stdout).head? = some t →
        localFs pair.local_path = some c →
        should_sync_file E hash localFs s pair = (s1, .ok (hash c != t))) ∧
      (∀ s1 (st : FileSyncStatus),
        should_sync_file E hash localFs s pair = (s1, .ok false) →
        sync_regular_file E hash localFs s pair st =
          (s1, { st with files_skipped := st.files_skipped ++ [pair.local_path] }, .ok ()))) ∧
    (∀ (σ : Type) (E : SyncExec σ) (hash : String → String)
        (localFs : String → Option String) (remote_root : String) (plan : SyncPlan)
        (s0 : σ),
      (∃ r0, E.run s0 ("mkdir -p " ++ remote_root) = (s0, .ok r0)) →
      (∀ (s : σ) (pair : SyncPair), pair ∈ plan.allPairs →
        pair.is_directory = false ∧ ∃ c res, localFs pair.local_path = some c ∧
          E.run s ("sha256sum " ++ pair.remote_path) = (s, .ok res) ∧
          res.is_success = true ∧
          (splitWhitespace res.output.stdout).head? = some (hash c)) →
      sync_files E hash localFs remote_root plan s0 =
        (s0, { files_synced := [], files_skipped := plan.allPairs.map (fun p => p.local_path),
               files_failed := [] }, .ok ())) := by
  constructor
  · intro σ E hash localFs s pair
    refine ⟨?_, ?_, ?_, ?_⟩
    · intro s1 err hrun
      simp [should_sync_file, hrun]
    · intro s1 r hrun hsucc
      simp [should_sync_file, hrun, hsucc]
    · intro s1 r t c hrun hsucc hhead hl
      simp [should_sync_file, hrun, hsucc, hhead, sha256_file, hl]
    · intro s1 st hdec
      simp [sync_regular_file, hdec]
  · intro σ E hash localFs remote_root plan s0 hmk hpairs
    obtain ⟨r0, hr0⟩ := hmk
    have hwalk := sync_pairs_all_skip E hash localFs plan.allPairs s0 FileSyncStatus.empty
      (fun s2 p hp => (hpairs s2 p hp).2)
    simp only [FileSyncStatus.empty] at hwalk
    simp [sync_files, hr0, hwalk, FileSyncStatus.empty]

end Dcd
